import Mathlib

/-!
Verification of the report-saving module of xpub-scan
(`src/actions/saveAnalysis.ts`).

Monetary amounts are modelled as exact rationals (`ℚ`): the source
routes every monetary value through the `satoshi-bitcoin` npm package,
whose `toSatoshi`/`toBitcoin` perform exact decimal arithmetic via
`Big.js` (multiplication and division by `10^8`).  JavaScript strings
are modelled through their character lists; every string primitive the
source uses (`String(n)`, `Number(s)`, `replace`, `split`/`join`,
`padStart`, `padEnd`, `toLowerCase`, `substring`) is given a
structurally recursive, kernel-evaluable definition below.

Values that live in this repository but outside the translated file
(the `configuration` object, `GAP_LIMIT` and `EXTERNAL_EXPLORER_URL`
from `../settings`, `reportTemplate` from `../templates/report.html`,
`toUnprefixedCashAddress` from `../helpers`, the node `__dirname` value) and
external npm functions (`JSON.stringify`, `html-minifier`,
`Number.prototype.toFixed`) are taken as parameters (`Config`,
`Externals`) and quantified over in the theorems.
-/

namespace XpubScan

/-! ### JavaScript string/number primitives -/

/-- Decimal digit character: `digitChar 7` is the character for digit 7. -/
def digitChar (d : ℕ) : Char := Char.ofNat (48 + d)

/-- Fuel-based decimal rendering of a natural number, most significant
digit first.  `fuel ≥ n + 1` always suffices. -/
def natToCharsCore : ℕ → ℕ → List Char → List Char
  | 0, _, acc => acc
  | fuel + 1, n, acc =>
    if n < 10 then digitChar n :: acc
    else natToCharsCore fuel (n / 10) (digitChar (n % 10) :: acc)

/-- Decimal digit list of a natural number, e.g. `natToChars 45` is the two-digit list for 45. -/
def natToChars (n : ℕ) : List Char := natToCharsCore (n + 1) n []

/-- Model of JavaScript `String(n)` for an integral number `n`:
its decimal rendering, with a leading minus sign when negative. -/
def jsIntString (n : ℤ) : String :=
  String.mk (if n < 0 then '-' :: natToChars n.natAbs else natToChars n.natAbs)

/-- Accumulate the value of a decimal digit list. -/
def parseNatChars (l : List Char) : ℕ :=
  l.foldl (fun acc c => acc * 10 + (c.toNat - 48)) 0

/-- Model of JavaScript `Number(s)` (and of loose coercion `s == 0`)
restricted to the integer-literal strings this module produces. -/
def jsToNumber (s : String) : ℤ :=
  if s.data.head? = some '-' then -(parseNatChars s.data.tail : ℤ)
  else (parseNatChars s.data : ℤ)

/-- Does `pat` occur as a prefix of `s`? -/
def isPrefixChars : List Char → List Char → Bool
  | [], _ => true
  | _ :: _, [] => false
  | p :: ps, c :: cs => p == c && isPrefixChars ps cs

/-- Replace the first occurrence of `pat`, as JavaScript
`s.replace(pat, rep)` does for string patterns. -/
def replaceFirstChars (pat rep : List Char) : List Char → List Char
  | [] => if isPrefixChars pat [] then rep else []
  | c :: cs =>
    if isPrefixChars pat (c :: cs) then rep ++ (c :: cs).drop pat.length
    else c :: replaceFirstChars pat rep cs

/-- JavaScript `s.replace(pat, rep)` with a string pattern: first
occurrence only. -/
def replaceFirst (s pat rep : String) : String :=
  String.mk (replaceFirstChars pat.data rep.data s.data)

/-- Fuel-based replacement of every occurrence of `pat`; with
`fuel = s.length` this is JavaScript `s.split(pat).join(rep)`. -/
def replaceAllCore : ℕ → List Char → List Char → List Char → List Char
  | 0, _, _, s => s
  | _ + 1, _, _, [] => []
  | fuel + 1, pat, rep, c :: cs =>
    if !pat.isEmpty && isPrefixChars pat (c :: cs) then
      rep ++ replaceAllCore fuel pat rep ((c :: cs).drop pat.length)
    else c :: replaceAllCore fuel pat rep cs

/-- JavaScript `s.split(pat).join(rep)` for a non-empty string pattern:
replace every (non-overlapping, leftmost-first) occurrence. -/
def replaceAll (s pat rep : String) : String :=
  String.mk (replaceAllCore s.data.length pat.data rep.data s.data)

/-- Model of JavaScript `toLowerCase`/`toLocaleLowerCase` on the ASCII
strings this module compares (destination names, currency names). -/
def jsToLower (s : String) : String := String.mk (s.data.map Char.toLower)

/-- JavaScript `s.padStart(len, c)`. -/
def padStart (s : String) (len : ℕ) (c : Char) : String :=
  String.mk (List.replicate (len - s.length) c) ++ s

/-- JavaScript `s.padEnd(len, c)`. -/
def padEnd (s : String) (len : ℕ) (c : Char) : String :=
  s ++ String.mk (List.replicate (len - s.length) c)

/-- JavaScript `Math.trunc` on an exact rational: drop the fractional
part, rounding toward zero (t-division of numerator by denominator). -/
def mathTrunc (q : ℚ) : ℤ := q.num.tdiv q.den

/-! ### Model of the `satoshi-bitcoin` npm package

`sb.toSatoshi` multiplies by `10^8` and `sb.toBitcoin` divides by
`10^8`, both exactly (`Big.js` decimal arithmetic). -/

/-- Model of `sb.toSatoshi(amount)`: display unit to base unit. -/
def toSatoshi (amount : ℚ) : ℚ := amount * 100000000

/-- Model of `sb.toBitcoin(satoshi)`: base unit to display unit. -/
def toBitcoin (satoshi : ℚ) : ℚ := satoshi / 100000000

/-! ### Configuration (from `../settings`, outside the translated file)

Modelled from the spec: the global `configuration` object, `GAP_LIMIT`
and `EXTERNAL_EXPLORER_URL` live in `../settings`; only the fields the
translated module reads are modelled, as abstract values. -/

structure Config where
  currency : String
  symbol : String
  providerType : String
  customAPI : Option String
  defaultAPIBch : String
  defaultAPIGeneral : String
  gapLimit : ℕ
  explorerURL : String

/-- The `meta` argument of `save` (version, xpub and analysis date). -/
structure MetaIn where
  version : String
  xpub : String
  date : String

/-! ### Input data model (the `data` argument of `save`)

The address entries carry the results of the method calls the source
makes on them (`getDerivation()`, `toString()`, `asCashAddress()`)
as plain fields. -/

structure Derivation where
  account : ℕ
  index : ℕ

structure AddressStats where
  funded : ℚ
  spent : ℚ

structure InAddress where
  addressType : String
  derivation : Derivation
  address : String
  cashAddress : Option String
  balance : ℚ
  stats : AddressStats

structure InSummary where
  addressType : String
  balance : ℚ

structure InTransaction where
  date : String
  block : ℕ
  txid : String
  address : String
  amount : ℚ
  operationType : String

/-- An imported operation (the `imported` side of a comparison); its
address may be absent for CSV sources without addresses. -/
structure InOperation where
  date : String
  address : Option String
  amount : ℚ
  txid : String
  operationType : String

/-- An actual (on-chain) operation, the `actual` side of a comparison. -/
structure InActual where
  date : String
  address : String
  amount : ℚ
  txid : String
  operationType : String

structure InComparison where
  imported : Option InOperation
  actual : Option InActual
  status : String

structure InData where
  addresses : List InAddress
  summary : List InSummary
  transactions : List InTransaction
  comparisons : Option (List InComparison)

/-! ### Output object (handed to `saveJSON`/`saveHTML`) -/

structure OutAddress where
  addressType : String
  derivation : Derivation
  address : String
  cashAddress : Option String
  balance : String
  funded : String
  spent : String

structure OutSummary where
  addressType : String
  balance : String

structure OutTransaction where
  date : String
  block : ℕ
  txid : String
  address : String
  cashAddress : Option String
  amount : String
  operationType : String

structure OutOperation where
  date : String
  address : Option String
  amount : String
  txid : String
  operationType : String

structure OutActual where
  date : String
  address : String
  cashAddress : Option String
  amount : String
  txid : String
  operationType : String

structure OutComparison where
  imported : Option OutOperation
  actual : Option OutActual
  status : String

/-- The output object.  `meta` is an association list in construction
order, mirroring the JavaScript object literal (whose keys `saveHTML`
enumerates with `Object.keys`); the numeric `gap_limit` is stored
through its decimal rendering. -/
structure Output where
  meta : List (String × String)
  addresses : List OutAddress
  summary : List OutSummary
  transactions : List OutTransaction
  comparisons : Option (List OutComparison)

/-- External functions the module calls but does not define:
`JSON.stringify(·, null, 2)`, `html-minifier`, `toFixed(8)` and
number-to-string rendering (floating-point display formatting),
`toUnprefixedCashAddress` from `../helpers`, the node `__dirname` value, and
the HTML report template from `../templates/report.html`. -/
structure Externals where
  stringify : Output → String
  minify : String → String
  toFixed8 : ℚ → String
  numToString : ℚ → String
  cashAddr : String → Option String
  dirname : String
  reportTemplate : String

/-- JavaScript property access `object.meta[key]` on the meta object
(the key is present in every object `save` builds). -/
def metaGet (o : Output) (k : String) : String :=
  (List.lookup k o.meta).getD ""

/-- File-system and console effects performed by the module. -/
inductive Effect where
  | consoleLog : String → Effect
  | writeFile : String → String → Effect
  deriving DecidableEq

/-! ### Translation of the functions of `saveAnalysis.ts` -/

/-- Function `toBaseUnit` (lines 11-23): convert to base unit with
`sb.toSatoshi`, truncate any remaining fractional part (`Math.trunc`),
and render with `String(n)`. -/
def toBaseUnit (amount : ℚ) : String :=
  let n := toSatoshi amount
  let n2 : ℚ := if n.den ≠ 1 then (mathTrunc n : ℚ) else n
  jsIntString n2.num

/-- Function `renderAmount` (lines 26-46): align float numbers or zeros.  The
zero test is JavaScript loose equality `amount == 0` on the amount the
output object carries (an integer string); the non-zero branch renders
`sb.toBitcoin(amount).toFixed(8)`. -/
def renderAmount (toFixed8 : ℚ → String) (amount : String) : String :=
  let n := if jsToNumber amount == 0 then padEnd "0" 10 '¤'
           else toFixed8 (toBitcoin (jsToNumber amount : ℚ))
  let n2 := padStart n 16 '¤'
  "<span class=\"monospaced\">" ++ replaceAll n2 "¤" "&nbsp;" ++ "</span>"

/-- Function `getCoinName` (lines 50-52): lower-case currency, first space
replaced by a dash. -/
def getCoinName (cfg : Config) : String :=
  replaceFirst (jsToLower cfg.currency) " " "-"

/-- Function `addressAsLink` (lines 55-70): empty string for an absent address;
otherwise a link whose text is the address, truncated to its first 45
characters plus an ellipsis when it has 45 characters or more. -/
def addressAsLink (cfg : Config) (address : Option String) : String :=
  match address with
  | none => ""
  | some address =>
    let url := replaceFirst (replaceFirst (replaceFirst cfg.explorerURL
      "{coin}" (getCoinName cfg)) "{type}" "address") "{item}" address
    let display := if address.length < 45 then address
                   else address.take 45 ++ "..."
    "<a class=\"monospaced\" href=\"" ++ url ++ "\" target=_blank>" ++ display ++ "</a>"

/-- JavaScript truthiness test `!cashAddress` on an optional string. -/
def jsFalsy : Option String → Bool
  | none => true
  | some s => s.isEmpty

/-- Function `renderAddress` (lines 72-83). -/
def renderAddress (cfg : Config) (address : Option String)
    (cashAddress : Option String) : String :=
  let renderedAddress := addressAsLink cfg address
  if cfg.symbol ≠ "BCH" ∨ jsFalsy cashAddress then renderedAddress
  else renderedAddress ++ "</br>" ++ addressAsLink cfg cashAddress

/-- Function `renderTxid` (lines 86-95). -/
def renderTxid (cfg : Config) (txid : String) : String :=
  let url := replaceFirst (replaceFirst (replaceFirst cfg.explorerURL
    "{coin}" (getCoinName cfg)) "{type}" "transaction") "{item}" txid
  let t := txid.take 10 ++ "..."
  "<a class=\"monospaced\" href=\"" ++ url ++ "\" target=_blank>" ++ t ++ "</a>"

/-- Function `createTooltip` (lines 98-128). -/
def createTooltip (opType : String) : String :=
  if opType = "Sent" ∨ opType = "Received" then opType
  else
    let tooltip :=
      if opType = "Received (non-sibling to change)" then
        "\n        <span class=\"tooltiptext\">\n            Change address that received funds from an address NOT belonging to the same xpub\n        </span>\n        "
      else if opType = "Sent to self" then
        "\n        <span class=\"tooltiptext\">\n            Sent to itself (same address)\n        </span>\n        "
      else if opType = "Sent to sibling" then
        "\n        <span class=\"tooltiptext\">\n            Sent to another address, belonging to the same xpub (sibling)\n        </span>\n        "
      else ""
    "<div class=\"tooltip\">" ++ opType ++ tooltip ++ "</div>"

/-- The summary cell classification of `saveHTML` (lines 143-151):
`sb.toBitcoin(e.balance)` compared with `0` by strict equality. -/
def summaryClass (balance : String) : String :=
  if toBitcoin (jsToNumber balance : ℚ) == 0 then "<td class=\"summary_empty\">"
  else "<td class=\"summary_non_empty\">"

/-- One summary table row of `saveHTML` (lines 140-154). -/
def summaryRow (numToString : ℚ → String) (e : OutSummary) : String :=
  "<tr><td>" ++ e.addressType ++ "</td>" ++ summaryClass e.balance ++
    numToString (toBitcoin (jsToNumber e.balance : ℚ)) ++ "</td></tr>"

/-- One address table row of `saveHTML` (lines 161-176). -/
def addressRow (cfg : Config) (toFixed8 : ℚ → String) (e : OutAddress) : String :=
  "<tr><td>" ++ e.addressType ++ "</td>" ++
  "<td>" ++ ("m/" ++ Nat.repr e.derivation.account ++ "/" ++ Nat.repr e.derivation.index) ++ "</td>" ++
  "<td>" ++ renderAddress cfg (some e.address) e.cashAddress ++ "</td>" ++
  "<td>" ++ renderAmount toFixed8 e.balance ++ "</td>" ++
  "<td>" ++ renderAmount toFixed8 e.funded ++ "</td>" ++
  "<td>" ++ renderAmount toFixed8 e.spent ++ "</td></tr>"

/-- One transaction table row of `saveHTML` (lines 191-198). -/
def transactionRow (cfg : Config) (toFixed8 : ℚ → String) (e : OutTransaction) : String :=
  "<tr><td>" ++ e.date ++ "</td>" ++
  "<td>" ++ Nat.repr e.block ++ "</td>" ++
  "<td>" ++ renderTxid cfg e.txid ++ "</td>" ++
  "<td>" ++ renderAddress cfg (some e.address) e.cashAddress ++ "</td>" ++
  "<td>" ++ renderAmount toFixed8 e.amount ++ "</td>" ++
  "<td>" ++ createTooltip e.operationType ++ "</td></tr>"

/-- The `comparisonsTemplate` literal of `saveHTML` (lines 203-232). -/
def comparisonsTemplate : String :=
  "\n        <li class=\"tab\">\n        <input type=\"radio\" name=\"tabs\" id=\"tab4\" />\n        <label for=\"tab4\">Comparisons</label>\n        <div id=\"tab-content4\" class=\"content\">\n        <table>\n            <thead>\n                <tr style=\"text-align: center\">\n                    <th rowspan=\"1\" colspan=\"3\">Imported</th>\n                    <th rowspan=\"1\" colspan=\"3\">Actual</th>\n                    <th rowspan=\"2\" colspan=\"1\">TXID</th>\n                    <th rowspan=\"2\" colspan=\"1\">Type</th>\n                    <th rowspan=\"2\" colspan=\"1\">Status</th>\n                </tr>\n                <tr>\n                    <th>Date</th>\n                    <th>Address</th>\n                    <th>Amount</th>\n                    <th>Date</th>\n                    <th>Address</th>\n                    <th>Amount</th>\n                </tr>\n            </thead>\n            <tbody>\n                {comparisons}\n            </tbody>\n        </table>\n        </div>\n        </li>\n        "

/-- One comparison table row of `saveHTML` (lines 236-279). -/
def comparisonRow (cfg : Config) (toFixed8 : ℚ → String) (e : OutComparison) : String :=
  let txidOp : String × String :=
    match e.actual with
    | some a => (a.txid, a.operationType)
    | none =>
      match e.imported with
      | some i => (i.txid, i.operationType)
      | none => ("", "")
  let imported : String × String × String :=
    match e.imported with
    | none => ("", "(no operation)", "")
    | some i => (i.date, renderAddress cfg i.address none, renderAmount toFixed8 i.amount)
  let actual : String × String × String :=
    match e.actual with
    | none => ("", "(no operation)", "")
    | some a => (a.date, renderAddress cfg (some a.address) a.cashAddress, renderAmount toFixed8 a.amount)
  (if e.status = "Match" then "<tr class=\"comparison_match\">"
   else "<tr class=\"comparison_mismatch\">") ++
  "<td>" ++ imported.1 ++ "</td>" ++
  "<td>" ++ imported.2.1 ++ "</td>" ++
  "<td>" ++ imported.2.2 ++ "</td>" ++
  "<td>" ++ actual.1 ++ "</td>" ++
  "<td>" ++ actual.2.1 ++ "</td>" ++
  "<td>" ++ actual.2.2 ++ "</td>" ++
  "<td>" ++ renderTxid cfg txidOp.1 ++ "</td>" ++
  "<td>" ++ createTooltip txidOp.2 ++ "</td>" ++
  "<td>" ++ e.status ++ "</td></tr>"

/-- The truncation warning text of `saveHTML` (line 184). -/
def defaultProviderWarning : String :=
  "Default provider used: only the last ~50 operations by address are displayed"

/-- The warning substitution of `saveHTML` (lines 182-188): the
`{warning}` placeholder is replaced by the truncation warning when
`object.meta.provider === "default"` (source uses single quotes) and by the empty string otherwise. -/
def applyWarning (meta : List (String × String)) (report : String) : String :=
  if List.lookup "provider" meta = some "default" then
    replaceFirst report "{warning}" defaultProviderWarning
  else
    replaceFirst report "{warning}" ""

/-- The comparisons substitution of `saveHTML` (lines 234-289). -/
def applyComparisons (cfg : Config) (toFixed8 : ℚ → String)
    (comparisons : Option (List OutComparison)) (report : String) : String :=
  let rows :=
    match comparisons with
    | none => []
    | some cs => cs.map (comparisonRow cfg toFixed8)
  if rows.length = 0 then replaceFirst report "{comparisons}" ""
  else replaceFirst report "{comparisons}"
    (replaceFirst comparisonsTemplate "{comparisons}" (String.join rows))

/-- The report assembly of `saveHTML` (lines 130-289): template
substitutions in source order (meta keys with `split`/`join`, i.e.
every occurrence; the others with single `replace`). -/
def buildReport (cfg : Config) (ext : Externals) (o : Output) : String :=
  let report := o.meta.foldl
    (fun r kv => replaceAll r ("\x7b" ++ kv.1 ++ "\x7d") kv.2) ext.reportTemplate
  let report := replaceFirst report "{summary}"
    (String.join (o.summary.map (summaryRow ext.numToString)))
  let report := replaceFirst report "{addresses}"
    (String.join (o.addresses.map (addressRow cfg ext.toFixed8)))
  let report := applyWarning o.meta report
  let report := replaceFirst report "{transactions}"
    (String.join (o.transactions.map (transactionRow cfg ext.toFixed8)))
  applyComparisons cfg ext.toFixed8 o.comparisons report

/-- Function `saveHTML` (lines 130-310): write the minified report to
`directory/xpub.html` and log the location. -/
def saveHTML (cfg : Config) (ext : Externals) (o : Output) (directory : String) :
    List Effect :=
  let report := buildReport cfg ext o
  let filepath := directory ++ "/" ++ metaGet o "xpub" ++ ".html"
  [Effect.writeFile filepath (ext.minify report),
   Effect.consoleLog ("HTML report saved: " ++ filepath)]

/-- Function `saveJSON` (lines 312-336): print the serialized object when the
destination compares case-insensitively to `stdout`, otherwise write
`directory/xpub.json` and log the location. -/
def saveJSON (ext : Externals) (o : Output) (directory : String) : List Effect :=
  let JSONobject := ext.stringify o
  let filepath := directory ++ "/" ++ metaGet o "xpub" ++ ".json"
  if jsToLower directory = "stdout" then
    [Effect.consoleLog JSONobject]
  else
    [Effect.writeFile filepath JSONobject,
     Effect.consoleLog ("\nJSON export saved: " ++ filepath)]

/-- The provider-URL selection of `save` (lines 383-392). -/
def providerURL (cfg : Config) : String :=
  match cfg.customAPI with
  | some u => u
  | none =>
    if cfg.symbol = "BCH" then cfg.defaultAPIBch else cfg.defaultAPIGeneral

/-- The `meta` object literal of `save` (lines 394-405), as an
association list in construction order. -/
def makeMeta (cfg : Config) (meta : MetaIn) : List (String × String) :=
  [("by", "xpub scan <https://github.com/LedgerHQ/xpub-scan>"),
   ("version", meta.version),
   ("xpub", meta.xpub),
   ("analysis_date", meta.date),
   ("currency", cfg.currency),
   ("provider", cfg.providerType),
   ("provider_url", providerURL cfg),
   ("gap_limit", Nat.repr cfg.gapLimit),
   ("unit", "Base unit (i.e., satoshis or equivalent unit)")]

/-- The output-object construction of `save` (lines 338-410): every
monetary amount converted with `toBaseUnit`, cash addresses attached
via `toUnprefixedCashAddress`. -/
def buildOutput (cfg : Config) (ext : Externals) (meta : MetaIn) (data : InData) :
    Output :=
  { meta := makeMeta cfg meta,
    addresses := data.addresses.map (fun e =>
      { addressType := e.addressType,
        derivation := e.derivation,
        address := e.address,
        cashAddress := e.cashAddress,
        balance := toBaseUnit e.balance,
        funded := toBaseUnit e.stats.funded,
        spent := toBaseUnit e.stats.spent }),
    summary := data.summary.map (fun e =>
      { addressType := e.addressType, balance := toBaseUnit e.balance }),
    transactions := data.transactions.map (fun e =>
      { date := e.date,
        block := e.block,
        txid := e.txid,
        address := e.address,
        cashAddress := ext.cashAddr e.address,
        amount := toBaseUnit e.amount,
        operationType := e.operationType }),
    comparisons := data.comparisons.map (fun cs => cs.map (fun e =>
      { imported := e.imported.map (fun i =>
          { date := i.date,
            address := i.address,
            amount := toBaseUnit i.amount,
            txid := i.txid,
            operationType := i.operationType }),
        actual := e.actual.map (fun a =>
          { date := a.date,
            address := a.address,
            cashAddress := ext.cashAddr a.address,
            amount := toBaseUnit a.amount,
            txid := a.txid,
            operationType := a.operationType }),
        status := e.status })) }

/-- Function `save` (lines 338-422): build the output object, default an empty
destination to the module directory, export JSON always, and render
the HTML report unless the destination is `stdout`. -/
def save (cfg : Config) (ext : Externals) (meta : MetaIn) (data : InData)
    (directory : String) : List Effect :=
  let object := buildOutput cfg ext meta data
  let directory := if directory = "" then ext.dirname else directory
  saveJSON ext object directory ++
    (if jsToLower directory ≠ "stdout" then saveHTML cfg ext object directory
     else [])

/-! ### Helper lemmas: decimal rendering round-trip -/

lemma digitChar_toNat (d : ℕ) (h : d < 10) : (digitChar d).toNat = 48 + d := by
  interval_cases d <;> decide

lemma natToCharsCore_append (fuel : ℕ) : ∀ (n : ℕ) (acc : List Char),
    natToCharsCore fuel n acc = natToCharsCore fuel n [] ++ acc := by
  induction fuel with
  | zero => intro n acc; simp [natToCharsCore]
  | succ fuel ih =>
    intro n acc
    by_cases h : n < 10
    · simp [natToCharsCore, h]
    · simp only [natToCharsCore, if_neg h]
      rw [ih (n / 10) (digitChar (n % 10) :: acc), ih (n / 10) [digitChar (n % 10)]]
      simp

lemma natToCharsCore_ne_nil (fuel : ℕ) : ∀ (n : ℕ) (acc : List Char),
    natToCharsCore (fuel + 1) n acc ≠ [] := by
  induction fuel with
  | zero =>
    intro n acc
    by_cases h : n < 10 <;> simp [natToCharsCore, h]
  | succ fuel ih =>
    intro n acc
    by_cases h : n < 10
    · simp [natToCharsCore, h]
    · simp only [natToCharsCore, if_neg h]
      exact ih (n / 10) _

lemma natToChars_ne_nil (n : ℕ) : natToChars n ≠ [] :=
  natToCharsCore_ne_nil n n []

lemma natToCharsCore_digits (fuel : ℕ) : ∀ (n : ℕ) (acc : List Char),
    (∀ c ∈ acc, 48 ≤ c.toNat ∧ c.toNat ≤ 57) →
    ∀ c ∈ natToCharsCore fuel n acc, 48 ≤ c.toNat ∧ c.toNat ≤ 57 := by
  induction fuel with
  | zero => intro n acc hacc; simpa [natToCharsCore] using hacc
  | succ fuel ih =>
    intro n acc hacc c hc
    by_cases h : n < 10
    · simp only [natToCharsCore, if_pos h, List.mem_cons] at hc
      rcases hc with hc | hc
      · subst hc
        rw [digitChar_toNat n h]
        omega
      · exact hacc c hc
    · simp only [natToCharsCore, if_neg h] at hc
      refine ih (n / 10) _ ?_ c hc
      intro d hd
      rcases List.mem_cons.mp hd with hd | hd
      · subst hd
        rw [digitChar_toNat _ (Nat.mod_lt _ (by omega))]
        omega
      · exact hacc d hd

lemma natToChars_digits (n : ℕ) :
    ∀ c ∈ natToChars n, 48 ≤ c.toNat ∧ c.toNat ≤ 57 :=
  natToCharsCore_digits (n + 1) n [] (by simp)

lemma parseNatChars_append (l : List Char) (c : Char) :
    parseNatChars (l ++ [c]) = parseNatChars l * 10 + (c.toNat - 48) := by
  simp [parseNatChars, List.foldl_append]

lemma parseNatChars_core (fuel : ℕ) : ∀ n : ℕ, n < fuel →
    parseNatChars (natToCharsCore fuel n []) = n := by
  induction fuel with
  | zero => omega
  | succ fuel ih =>
    intro n hn
    by_cases h : n < 10
    · simp only [natToCharsCore, if_pos h, parseNatChars, List.foldl_cons,
        List.foldl_nil]
      rw [digitChar_toNat n h]
      omega
    · have hdiv : n / 10 < fuel := by
        have h1 : n / 10 < n := Nat.div_lt_self (by omega) (by omega)
        omega
      simp only [natToCharsCore, if_neg h]
      rw [natToCharsCore_append fuel (n / 10) [digitChar (n % 10)],
        parseNatChars_append, ih (n / 10) hdiv,
        digitChar_toNat _ (Nat.mod_lt _ (by omega))]
      omega

lemma parseNatChars_natToChars (n : ℕ) : parseNatChars (natToChars n) = n :=
  parseNatChars_core (n + 1) n (Nat.lt_succ_self n)

lemma jsToNumber_jsIntString (n : ℤ) : jsToNumber (jsIntString n) = n := by
  by_cases hneg : n < 0
  · simp only [jsToNumber, jsIntString, if_pos hneg, List.head?_cons,
      List.tail_cons, Option.some.injEq]
    rw [if_pos trivial, parseNatChars_natToChars]
    omega
  · obtain ⟨c, cs, hc⟩ : ∃ c cs, natToChars n.natAbs = c :: cs := by
      cases h : natToChars n.natAbs with
      | nil => exact absurd h (natToChars_ne_nil _)
      | cons c cs => exact ⟨c, cs, rfl⟩
    have hd : c ≠ '-' := by
      intro he
      have := (natToChars_digits n.natAbs c (by rw [hc]; exact List.mem_cons_self c cs)).1
      rw [he] at this
      exact absurd this (by decide)
    simp only [jsToNumber, jsIntString, if_neg hneg, hc, List.head?_cons]
    rw [if_neg (by simpa using hd), ← hc, parseNatChars_natToChars]
    omega

/-! ### Helper lemmas: truncation -/

lemma rat_den_one (q : ℚ) (h : q.den = 1) : (q.num : ℚ) = q := by
  conv_rhs => rw [← Rat.num_div_den q]
  rw [h]
  simp

lemma mathTrunc_intCast (m : ℤ) : mathTrunc (m : ℚ) = m := by
  simp [mathTrunc, Rat.num_intCast, Rat.den_intCast, Int.tdiv_one]

lemma mathTrunc_den_one (q : ℚ) (h : q.den = 1) : mathTrunc q = q.num := by
  simp [mathTrunc, h, Int.tdiv_one]

lemma mathTrunc_nonneg (q : ℚ) (h : 0 ≤ q) : mathTrunc q = ⌊q⌋ := by
  rw [mathTrunc, Int.tdiv_eq_ediv (Rat.num_nonneg.mpr h) (by positivity),
    Rat.floor_def]

lemma toBaseUnit_eq (a : ℚ) :
    toBaseUnit a = jsIntString (mathTrunc (toSatoshi a)) := by
  unfold toBaseUnit
  by_cases h : (toSatoshi a).den = 1
  · simp [h, mathTrunc_den_one _ h]
  · simp [h, Rat.num_intCast]

lemma metaGet_buildOutput_xpub (cfg : Config) (ext : Externals) (m : MetaIn)
    (data : InData) : metaGet (buildOutput cfg ext m data) "xpub" = m.xpub := rfl

/-! ### Shared concrete instances for witnesses -/

/-- A concrete configuration used by witnesses. -/
def cfgW : Config :=
  { currency := "Bitcoin", symbol := "BTC", providerType := "default",
    customAPI := none, defaultAPIBch := "https://bch.example/api",
    defaultAPIGeneral := "https://general.example/api", gapLimit := 20,
    explorerURL := "https://explorer.example/{coin}/{type}/{item}" }

/-- Concrete externals used by witnesses. -/
def extW : Externals :=
  { stringify := fun _ => "JSONDATA", minify := id,
    toFixed8 := fun _ => "0.00000000", numToString := fun _ => "0",
    cashAddr := fun _ => none, dirname := "MODULEDIR",
    reportTemplate := "{summary}{addresses}{warning}{transactions}{comparisons}" }

/-- Concrete meta argument used by witnesses. -/
def metaW : MetaIn :=
  { version := "1.0.0", xpub := "xpub6TEST", date := "2020-01-01" }

/-- Concrete scan data used by witnesses. -/
def dataW : InData :=
  { addresses := [], summary := [], transactions := [], comparisons := none }

/-! ### Claims -/

/-- Claim C1: every monetary field of the output object handed to the
Reporter (each address balance/funded/spent, each summary balance, each
transaction amount, each comparison imported/actual amount) is an
integer string in base units: `toBaseUnit` returns the decimal string
of the integer obtained by converting the amount to base units and
truncating toward zero, and `save` applies `toBaseUnit` to every one
of these fields. -/
theorem c1_monetary_fields_are_integer_strings (cfg : Config) (ext : Externals)
    (m : MetaIn) (data : InData) (a : ℚ) :
    toBaseUnit a = jsIntString (mathTrunc (toSatoshi a))
  ∧ (buildOutput cfg ext m data).addresses = data.addresses.map (fun e =>
      { addressType := e.addressType, derivation := e.derivation,
        address := e.address, cashAddress := e.cashAddress,
        balance := toBaseUnit e.balance, funded := toBaseUnit e.stats.funded,
        spent := toBaseUnit e.stats.spent })
  ∧ (buildOutput cfg ext m data).summary = data.summary.map (fun e =>
      { addressType := e.addressType, balance := toBaseUnit e.balance })
  ∧ (buildOutput cfg ext m data).transactions = data.transactions.map (fun e =>
      { date := e.date, block := e.block, txid := e.txid, address := e.address,
        cashAddress := ext.cashAddr e.address, amount := toBaseUnit e.amount,
        operationType := e.operationType })
  ∧ (buildOutput cfg ext m data).comparisons = data.comparisons.map
      (fun cs => cs.map (fun e =>
        { imported := e.imported.map (fun i =>
            { date := i.date, address := i.address,
              amount := toBaseUnit i.amount, txid := i.txid,
              operationType := i.operationType }),
          actual := e.actual.map (fun a2 =>
            { date := a2.date, address := a2.address,
              cashAddress := ext.cashAddr a2.address,
              amount := toBaseUnit a2.amount, txid := a2.txid,
              operationType := a2.operationType }),
          status := e.status })) :=
  ⟨toBaseUnit_eq a, rfl, rfl, rfl, rfl⟩

/-- Claim C2, counterexample: the claim quantifies over all inputs with
`balance = funded − spent`; with `funded = 1.4` base units and
`spent = 0.6` base units (amounts fractional in base units, which the
source comments say can occur with imported operations) the balance is
`0.8` base units, and truncation gives `0 ≠ 1 − 0`. -/
theorem c2_counterexample_fractional_base_units :
    ((8 : ℚ) / 1000000000 = (14 : ℚ) / 1000000000 - (6 : ℚ) / 1000000000)
  ∧ toBaseUnit ((14 : ℚ) / 1000000000) = "1"
  ∧ toBaseUnit ((6 : ℚ) / 1000000000) = "0"
  ∧ toBaseUnit ((8 : ℚ) / 1000000000) = "0"
  ∧ jsToNumber (toBaseUnit ((8 : ℚ) / 1000000000)) ≠
      jsToNumber (toBaseUnit ((14 : ℚ) / 1000000000)) -
        jsToNumber (toBaseUnit ((6 : ℚ) / 1000000000)) := by
  have h14 : toBaseUnit ((14 : ℚ) / 1000000000) = "1" := by
    rw [toBaseUnit_eq, show toSatoshi ((14 : ℚ) / 1000000000) = 7 / 5 by
      norm_num [toSatoshi], mathTrunc_nonneg _ (by norm_num)]
    norm_num
    decide
  have h6 : toBaseUnit ((6 : ℚ) / 1000000000) = "0" := by
    rw [toBaseUnit_eq, show toSatoshi ((6 : ℚ) / 1000000000) = 3 / 5 by
      norm_num [toSatoshi], mathTrunc_nonneg _ (by norm_num)]
    norm_num
    decide
  have h8 : toBaseUnit ((8 : ℚ) / 1000000000) = "0" := by
    rw [toBaseUnit_eq, show toSatoshi ((8 : ℚ) / 1000000000) = 4 / 5 by
      norm_num [toSatoshi], mathTrunc_nonneg _ (by norm_num)]
    norm_num
    decide
  refine ⟨by norm_num, h14, h6, h8, ?_⟩
  rw [h14, h6, h8]
  decide

/-- Claim C2, amended: when funded and spent are integral in base units
(as the invariants of the data model guarantee for scanned data), the
balance invariant survives the conversion exactly: assuming
`b = f − s`, the output strings satisfy `balance = funded − spent` as
exact integers. -/
theorem c2_balance_invariant_for_integral_amounts (f s b : ℚ)
    (hb : b = f - s) (hf : (toSatoshi f).den = 1) (hs : (toSatoshi s).den = 1) :
    jsToNumber (toBaseUnit b) =
      jsToNumber (toBaseUnit f) - jsToNumber (toBaseUnit s)
  ∧ toBaseUnit b =
      jsIntString (jsToNumber (toBaseUnit f) - jsToNumber (toBaseUnit s)) := by
  have hfb : toSatoshi b = toSatoshi f - toSatoshi s := by
    rw [hb]; unfold toSatoshi; ring
  have hf1 : ((toSatoshi f).num : ℚ) = toSatoshi f := rat_den_one _ hf
  have hs1 : ((toSatoshi s).num : ℚ) = toSatoshi s := rat_den_one _ hs
  have hb2 : toSatoshi b = (((toSatoshi f).num - (toSatoshi s).num : ℤ) : ℚ) := by
    push_cast
    rw [hf1, hs1, hfb]
  have tb : mathTrunc (toSatoshi b) = (toSatoshi f).num - (toSatoshi s).num := by
    rw [hb2, mathTrunc_intCast]
  rw [toBaseUnit_eq b, toBaseUnit_eq f, toBaseUnit_eq s, tb,
    mathTrunc_den_one _ hf, mathTrunc_den_one _ hs,
    jsToNumber_jsIntString, jsToNumber_jsIntString, jsToNumber_jsIntString]
  exact ⟨rfl, rfl⟩

/-- Claim C2, witness for the amended theorem at `f = 5`, `s = 2`,
`b = 3` (whole display units, hence integral in base units). -/
theorem c2_balance_invariant_witness :
    jsToNumber (toBaseUnit (3 : ℚ)) =
      jsToNumber (toBaseUnit (5 : ℚ)) - jsToNumber (toBaseUnit (2 : ℚ))
  ∧ toBaseUnit (3 : ℚ) =
      jsIntString (jsToNumber (toBaseUnit (5 : ℚ)) - jsToNumber (toBaseUnit (2 : ℚ))) :=
  c2_balance_invariant_for_integral_amounts 5 2 3 (by norm_num)
    (by norm_num [toSatoshi]) (by norm_num [toSatoshi])

/-- Claim C3, counterexample: the claim asserts that the zero decision
is taken on the canonical integer base-unit value directly and not on
a display-converted (unit-converted) or string-rendered quantity.  The
summary branch of `saveHTML` (lines 143-146, embedded as
`summaryClass`) compares `sb.toBitcoin(e.balance)` with zero: at the
concrete one-bitcoin entry, whose balance string is `"100000000"`, the
quantity compared with zero is the display-converted value `1`, which
differs from the canonical base-unit value `100000000` — so the
decision is taken on a unit-converted quantity, not on the base-unit
integer directly (and `renderAmount`, line 33, likewise tests the
string-rendered amount by loose equality). -/
theorem c3_counterexample_decision_on_converted_value :
    toBaseUnit (1 : ℚ) = "100000000"
  ∧ summaryClass "100000000" = "<td class=\"summary_non_empty\">"
  ∧ toBitcoin ((jsToNumber "100000000" : ℤ) : ℚ) = 1
  ∧ toBitcoin ((jsToNumber "100000000" : ℤ) : ℚ) ≠
      ((jsToNumber "100000000" : ℤ) : ℚ) := by
  have hj : jsToNumber "100000000" = (100000000 : ℤ) := by decide
  have ht : toBitcoin ((100000000 : ℤ) : ℚ) = 1 := by norm_num [toBitcoin]
  refine ⟨?_, ?_, ?_, ?_⟩
  · rw [toBaseUnit_eq,
      show toSatoshi (1 : ℚ) = ((100000000 : ℤ) : ℚ) by norm_num [toSatoshi],
      mathTrunc_intCast]
    decide
  · unfold summaryClass
    rw [hj, ht, beq_eq_false_iff_ne.mpr (by norm_num : (1 : ℚ) ≠ 0)]
    rfl
  · rw [hj, ht]
  · rw [hj, ht]
    norm_num

/-- Claim C3, amended: the equality-against-zero decisions on monetary
amounts hold exactly when the integer base-unit amount is zero, but
the program does not take them directly on the canonical base-unit
integer: the zero branch of `renderAmount` tests the string-rendered
amount via loose `==`, and the summary classification of `saveHTML`
tests the unit-converted value `sb.toBitcoin(e.balance)` against `0`.
Both decisions fire precisely for the amount `0`, and both tests are
provably equal to the direct test on the canonical base-unit integer,
since over exact arithmetic `toBitcoin` and the decimal rendering
vanish exactly at zero. -/
theorem c3_zero_decisions_on_base_unit_integer (tf : ℚ → String) (n : ℤ) :
    renderAmount tf (jsIntString n) =
      "<span class=\"monospaced\">" ++
        replaceAll (padStart (if n = 0 then padEnd "0" 10 '¤'
          else tf (toBitcoin (n : ℚ))) 16 '¤') "¤" "&nbsp;" ++ "</span>"
  ∧ summaryClass (jsIntString n) =
      (if n = 0 then "<td class=\"summary_empty\">"
       else "<td class=\"summary_non_empty\">")
  ∧ ((toBitcoin (n : ℚ) == 0) = (n == 0))
  ∧ ((jsToNumber (jsIntString n) == 0) = (n == 0)) := by
  have hrt : jsToNumber (jsIntString n) = n := jsToNumber_jsIntString n
  have hbit : toBitcoin (n : ℚ) = 0 ↔ n = 0 := by
    unfold toBitcoin
    constructor
    · intro h
      rcases div_eq_zero_iff.mp h with h1 | h1
      · exact_mod_cast h1
      · norm_num at h1
    · intro h
      rw [h]
      simp
  have hc3 : (toBitcoin (n : ℚ) == 0) = (n == 0) := by
    by_cases h : n = 0
    · subst h
      rw [hbit.mpr rfl]
      simp
    · rw [beq_eq_false_iff_ne.mpr (fun hc => h (hbit.mp hc)),
        beq_eq_false_iff_ne.mpr h]
  refine ⟨?_, ?_, hc3, by rw [hrt]⟩
  · unfold renderAmount
    rw [hrt]
    by_cases h : n = 0
    · rw [if_pos (by rw [h]; simp), if_pos h]
    · rw [if_neg (by rw [beq_eq_false_iff_ne.mpr h]; simp), if_neg h]
  · unfold summaryClass
    rw [hrt, hc3]
    by_cases h : n = 0
    · rw [if_pos (by rw [h]; simp), if_pos h]
    · rw [if_neg (by rw [beq_eq_false_iff_ne.mpr h]; simp), if_neg h]

/-- Claim C4, counterexample: at a concrete configuration the meta
object records the key under the name `xpub`, not `key`, and carries
an additional provenance field `by`. -/
theorem c4_counterexample_meta_fields :
    "key" ∉ (makeMeta cfgW metaW).map Prod.fst
  ∧ "by" ∈ (makeMeta cfgW metaW).map Prod.fst
  ∧ "xpub" ∈ (makeMeta cfgW metaW).map Prod.fst := by
  decide

/-- Claim C4, amended: the meta object contains exactly the fields
`by`, `version`, `xpub`, `analysis_date`, `currency`, `provider`,
`provider_url`, `gap_limit` and `unit`, in this order — the scanned
key is recorded under the name `xpub` rather than `key`, and one extra
constant provenance field `by` is present. -/
theorem c4_meta_field_names (cfg : Config) (m : MetaIn) :
    (makeMeta cfg m).map Prod.fst =
      ["by", "version", "xpub", "analysis_date", "currency", "provider",
       "provider_url", "gap_limit", "unit"] := rfl

/-- Claim C5: `meta.provider` always records the configured provider
type, and the warning substitution of `saveHTML` replaces the
`{warning}` placeholder with the default-provider truncation warning
exactly when `meta.provider` equals `default`, and with the empty
string for every other provider (shown both on the substitution
performed and on a template containing the placeholder). -/
theorem c5_provider_truncation_warning (cfg : Config) (m : MetaIn)
    (report p : String) :
    List.lookup "provider" (makeMeta cfg m) = some cfg.providerType
  ∧ applyWarning (makeMeta cfg m) report =
      replaceFirst report "{warning}"
        (if cfg.providerType = "default" then defaultProviderWarning else "")
  ∧ applyWarning [("provider", p)] "<html>{warning}</html>" =
      "<html>" ++ (if p = "default" then defaultProviderWarning else "") ++
        "</html>" := by
  have hl : List.lookup "provider" (makeMeta cfg m) = some cfg.providerType := rfl
  refine ⟨hl, ?_, ?_⟩
  · unfold applyWarning
    rw [hl]
    by_cases h : cfg.providerType = "default"
    · rw [if_pos (by rw [h]), if_pos h]
    · rw [if_neg (by simpa using h), if_neg h]
  · unfold applyWarning
    rw [show List.lookup "provider" [("provider", p)] = some p from rfl]
    by_cases h : p = "default"
    · rw [if_pos (by rw [h]), if_pos h]
      subst h
      decide
    · rw [if_neg (by simpa using h), if_neg h]
      decide

/-- Claim C6: when the destination compares case-insensitively to
`stdout`, `save` emits exactly the JSON serialization of the output
object on standard output — no JSON file and no HTML report; for any
other non-empty destination it writes both the JSON export and the
HTML report into that directory. -/
theorem c6_stdout_vs_directory (cfg : Config) (ext : Externals) (m : MetaIn)
    (data : InData) (dir : String) :
    (jsToLower dir = "stdout" →
      save cfg ext m data dir =
        [Effect.consoleLog (ext.stringify (buildOutput cfg ext m data))])
  ∧ (jsToLower dir ≠ "stdout" → dir ≠ "" →
      save cfg ext m data dir =
        [Effect.writeFile (dir ++ "/" ++ m.xpub ++ ".json")
           (ext.stringify (buildOutput cfg ext m data)),
         Effect.consoleLog ("\nJSON export saved: " ++
           (dir ++ "/" ++ m.xpub ++ ".json")),
         Effect.writeFile (dir ++ "/" ++ m.xpub ++ ".html")
           (ext.minify (buildReport cfg ext (buildOutput cfg ext m data))),
         Effect.consoleLog ("HTML report saved: " ++
           (dir ++ "/" ++ m.xpub ++ ".html"))]) := by
  constructor
  · intro h
    have hne : dir ≠ "" := by
      intro he
      subst he
      exact absurd h (by decide)
    simp [save, saveJSON, hne, h, metaGet_buildOutput_xpub]
  · intro h1 h2
    simp [save, saveJSON, saveHTML, h1, h2, metaGet_buildOutput_xpub]

/-- Claim C6, witness at the concrete destinations `STDOUT` and `out`. -/
theorem c6_witness :
    save cfgW extW metaW dataW "STDOUT" =
      [Effect.consoleLog (extW.stringify (buildOutput cfgW extW metaW dataW))]
  ∧ save cfgW extW metaW dataW "out" =
      [Effect.writeFile ("out" ++ "/" ++ metaW.xpub ++ ".json")
         (extW.stringify (buildOutput cfgW extW metaW dataW)),
       Effect.consoleLog ("\nJSON export saved: " ++
         ("out" ++ "/" ++ metaW.xpub ++ ".json")),
       Effect.writeFile ("out" ++ "/" ++ metaW.xpub ++ ".html")
         (extW.minify (buildReport cfgW extW (buildOutput cfgW extW metaW dataW))),
       Effect.consoleLog ("HTML report saved: " ++
         ("out" ++ "/" ++ metaW.xpub ++ ".html"))] :=
  ⟨(c6_stdout_vs_directory cfgW extW metaW dataW "STDOUT").1 (by decide),
   (c6_stdout_vs_directory cfgW extW metaW dataW "out").2 (by decide) (by decide)⟩

/-- Claim C7: every element of the output addresses array has exactly
the shape `{addressType, derivation{account,index}, address,
cashAddress?, balance, funded, spent}`: `save` emits, for each input
address record, its type and derivation unchanged, its address string
and cash-address form, and its balance/funded/spent converted by
`toBaseUnit`. -/
theorem c7_address_entry_shape (cfg : Config) (ext : Externals) (m : MetaIn)
    (data : InData) :
    (buildOutput cfg ext m data).addresses = data.addresses.map (fun e =>
      { addressType := e.addressType, derivation := e.derivation,
        address := e.address, cashAddress := e.cashAddress,
        balance := toBaseUnit e.balance, funded := toBaseUnit e.stats.funded,
        spent := toBaseUnit e.stats.spent })
  ∧ (buildOutput cfg ext m data).addresses.length = data.addresses.length :=
  ⟨rfl, by simp [buildOutput]⟩

/-- Claim C8: `meta.provider_url` reflects the configured provider
mode — the custom API URL whenever one is configured, otherwise the
BCH-specific default API when the configured symbol is `BCH`, and the
general default API for every other asset. -/
theorem c8_provider_url_selection (cfg : Config) (m : MetaIn) (u : String) :
    (cfg.customAPI = some u → providerURL cfg = u)
  ∧ (cfg.customAPI = none → cfg.symbol = "BCH" →
      providerURL cfg = cfg.defaultAPIBch)
  ∧ (cfg.customAPI = none → cfg.symbol ≠ "BCH" →
      providerURL cfg = cfg.defaultAPIGeneral)
  ∧ List.lookup "provider_url" (makeMeta cfg m) = some (providerURL cfg) := by
  refine ⟨?_, ?_, ?_, rfl⟩
  · intro h
    simp [providerURL, h]
  · intro h1 h2
    simp [providerURL, h1, h2]
  · intro h1 h2
    simp [providerURL, h1, h2]

/-- Claim C8, witness at the three concrete provider modes. -/
theorem c8_provider_url_witness :
    providerURL { cfgW with customAPI := some "https://custom.example" } =
      "https://custom.example"
  ∧ providerURL { cfgW with symbol := "BCH" } =
      ({ cfgW with symbol := "BCH" } : Config).defaultAPIBch
  ∧ providerURL cfgW = cfgW.defaultAPIGeneral :=
  ⟨(c8_provider_url_selection { cfgW with customAPI := some "https://custom.example" }
      metaW "https://custom.example").1 rfl,
   (c8_provider_url_selection { cfgW with symbol := "BCH" } metaW "x").2.1 rfl rfl,
   (c8_provider_url_selection cfgW metaW "x").2.2.1 rfl (by decide)⟩

/-- Claim C9: `addressAsLink` is total on an absent address, returning
the empty string; on a present address it returns a link whose visible
text is the full address when it has fewer than 45 characters, and the
first 45 characters followed by an ellipsis otherwise. -/
theorem c9_address_link_totality_and_truncation (cfg : Config) (s : String) :
    addressAsLink cfg none = ""
  ∧ addressAsLink cfg (some s) =
      "<a class=\"monospaced\" href=\"" ++
        replaceFirst (replaceFirst (replaceFirst cfg.explorerURL "{coin}"
          (getCoinName cfg)) "{type}" "address") "{item}" s ++
        "\" target=_blank>" ++
        (if s.length < 45 then s else s.take 45 ++ "...") ++ "</a>" :=
  ⟨rfl, rfl⟩

/-- Claim C10: the JSON export path is the destination directory, `/`,
the `meta.xpub` value and `.json` concatenated; the HTML report path
is the same with `.html`; the `xpub` meta value is the key `save` was
given; and an empty destination falls back to the module directory. -/
theorem c10_report_file_paths (cfg : Config) (ext : Externals) (m : MetaIn)
    (data : InData) (o : Output) (dir : String) :
    (jsToLower dir ≠ "stdout" →
      saveJSON ext o dir =
        [Effect.writeFile (dir ++ "/" ++ metaGet o "xpub" ++ ".json")
           (ext.stringify o),
         Effect.consoleLog ("\nJSON export saved: " ++
           (dir ++ "/" ++ metaGet o "xpub" ++ ".json"))])
  ∧ saveHTML cfg ext o dir =
      [Effect.writeFile (dir ++ "/" ++ metaGet o "xpub" ++ ".html")
         (ext.minify (buildReport cfg ext o)),
       Effect.consoleLog ("HTML report saved: " ++
         (dir ++ "/" ++ metaGet o "xpub" ++ ".html"))]
  ∧ metaGet (buildOutput cfg ext m data) "xpub" = m.xpub
  ∧ save cfg ext m data "" = save cfg ext m data ext.dirname := by
  refine ⟨?_, rfl, rfl, ?_⟩
  · intro h
    simp [saveJSON, h]
  · simp [save, ite_self]

/-- Claim C10, witness at the concrete destination `out`. -/
theorem c10_report_file_paths_witness :
    saveJSON extW (buildOutput cfgW extW metaW dataW) "out" =
      [Effect.writeFile
         ("out" ++ "/" ++ metaGet (buildOutput cfgW extW metaW dataW) "xpub" ++ ".json")
         (extW.stringify (buildOutput cfgW extW metaW dataW)),
       Effect.consoleLog ("\nJSON export saved: " ++
         ("out" ++ "/" ++ metaGet (buildOutput cfgW extW metaW dataW) "xpub" ++ ".json"))] :=
  (c10_report_file_paths cfgW extW metaW dataW
    (buildOutput cfgW extW metaW dataW) "out").1 (by decide)

end XpubScan
